import Mathlib

/-!
Verification development for the laniakea-plugin-sdk streaming RPC bridge
and version-handshake logic.

The Go sources embedded here:
  - datasource.go: DatasourceGRPCClient, DatasourceGRPCServer, DatasourceBase
  - controller.go: ControllerGRPCClient, ControllerGRPCServer, ControllerBase
    (the repository holds two revisions of this file; the one at the
    repository root uses plain string comparison in PushVersion and starts
    the forwarding goroutine without a first receive, while the revision
    packaged next to the proto schema performs a first receive and checks a
    parsed version constraint; both are embedded, suffixed V1 and V2)
  - interface.go: the Datasource and Controller capability interfaces.

The gRPC transport and the hashicorp go-version dependency are external
collaborators: receives from a network stream are modelled as a list of
receive results, sends as outcomes attached to loop events, and the
go-version library as an abstract record of parse and check functions whose
only fixed part is the shape the SDK relies on, namely that a constraint
set is a slice checked conjunctively (Constraints.Check returns true iff
every single constraint accepts the version, hence true on an empty slice).
-/

/-- Wire message Frame from proto/plugin.proto: source, MIME-like type tag,
UNIX millisecond timestamp, opaque payload bytes. -/
structure Frame where
  source : String
  type : String
  timestamp : Int
  payload : List Nat
deriving DecidableEq

/-- Go error values observed by the bridge on stream receives: io.EOF or any
other error (carrying its message). -/
inductive GoErr where
  | eof
  | other (msg : String)
deriving DecidableEq

/-- Result of one stream.Recv() call on the host side: the returned frame
pointer (none models nil) and the returned error (none models nil). -/
structure RecvStep where
  frame : Option Frame
  err : Option GoErr
deriving DecidableEq

/-- A successful receive of frame f: Recv returned (f, nil). -/
def okStep (f : Frame) : RecvStep := ⟨some f, none⟩

/-- End of stream: Recv returned (nil, io.EOF). -/
def eofStep : RecvStep := ⟨none, some GoErr.eof⟩

/-- Outcome of a host-side adapter call that returns (chan, error) in Go.
noChannel e models a return of (nil, e); channel r models a non-nil channel
handed back, where r records what the spawned forwarding goroutine does on
the remaining receive results: none when the goroutine is still blocked
after consuming the given results, and some (fs, closed) when it has exited
after delivering exactly fs onto the channel, with closed recording whether
close(frameChan) ran (the deferred close runs on every exit). -/
inductive HostResult where
  | noChannel (err : Option GoErr)
  | channel (task : Option (List Frame × Bool))
deriving DecidableEq

/-- Body of the forwarding goroutine spawned by DatasourceGRPCClient.StartRecord
(datasource.go) and by both revisions of ControllerGRPCClient.Command
(controller.go); the three occurrences are textually identical:
a loop of stream.Recv() that returns on a nil frame or io.EOF, breaks on any
other error, and otherwise sends the frame on frameChan; close(frameChan) is
deferred, so the channel is closed on every exit path. The argument lists the
successive Recv results; the value none means the goroutine is still inside
Recv once those results are consumed. -/
def clientForwardGoroutine : List RecvStep → Option (List Frame × Bool)
  | [] => none
  | s :: rest =>
    match s.frame, s.err with
    | none, _ => some ([], true)
    | some _, some _ => some ([], true)
    | some f, none =>
      match clientForwardGoroutine rest with
      | none => none
      | some r => some (f :: r.1, r.2)

/-- Host-side StartRecord adapter (datasource.go, DatasourceGRPCClient):
opens the server-stream call (openErr is the error of that call), performs
one eager Recv (first), returning (nil, err) if the frame is nil, the error
is io.EOF, or the error is non-nil; otherwise returns the fresh channel and
spawns the forwarding goroutine on the remaining receives (rest). Note that
the eagerly received first frame is not sent onto the channel. -/
def DatasourceGRPCClient.StartRecord (openErr : Option GoErr) (first : RecvStep)
    (rest : List RecvStep) : HostResult :=
  match openErr with
  | some e => HostResult.noChannel (some e)
  | none =>
    match first.frame, first.err with
    | none, e => HostResult.noChannel e
    | some _, some e => HostResult.noChannel (some e)
    | some _, none => HostResult.channel (clientForwardGoroutine rest)

/-- Host-side Command adapter from the repository-root controller.go:
opens the stream and, when the open succeeds, immediately returns the fresh
channel and spawns the forwarding goroutine on all receives; no first
receive happens before returning. -/
def ControllerGRPCClientV1.Command (openErr : Option GoErr)
    (steps : List RecvStep) : HostResult :=
  match openErr with
  | some e => HostResult.noChannel (some e)
  | none => HostResult.channel (clientForwardGoroutine steps)

/-- Host-side Command adapter from the controller.go revision packaged with
the proto schema: identical to DatasourceGRPCClient.StartRecord, including
the eager first receive and its early error returns. -/
def ControllerGRPCClientV2.Command (openErr : Option GoErr) (first : RecvStep)
    (rest : List RecvStep) : HostResult :=
  match openErr with
  | some e => HostResult.noChannel (some e)
  | none =>
    match first.frame, first.err with
    | none, e => HostResult.noChannel e
    | some _, some e => HostResult.noChannel (some e)
    | some _, none => HostResult.channel (clientForwardGoroutine rest)

example : clientForwardGoroutine [okStep ⟨"s", "t", 0, []⟩, eofStep]
    = some ([⟨"s", "t", 0, []⟩], true) := by decide

example : DatasourceGRPCClient.StartRecord none eofStep [] =
    HostResult.noChannel (some GoErr.eof) := by decide

/-- Context error carried by the done call context, as discriminated by
errors.Is(ctx.Err(), context.Canceled) in the server loops. -/
inductive CtxErr where
  | canceled
  | deadlineExceeded
  | other (msg : String)
deriving DecidableEq

/-- One iteration of the select loop in the plugin-side handlers. recv f se
models the select choosing the frameChan case, receiving frame pointer f
(none models nil, which is what a receive on a closed Go channel of pointers
yields) where se is the error that stream.Send would report for this frame;
ctxDone ce models the select choosing the done context case, with ce the
context error. -/
inductive ServerEvent where
  | recv (f : Option Frame) (sendErr : Option GoErr)
  | ctxDone (ce : CtxErr)
deriving DecidableEq

/-- Return value of a plugin-side handler once its loop exits: ok models
return nil, sendErr e models returning the failed Send error, ctxErr ce
models returning the non-canceled context error. -/
inductive LoopExit where
  | ok
  | sendErr (e : GoErr)
  | ctxErr (ce : CtxErr)
deriving DecidableEq

/-- Select loop of DatasourceGRPCServer.StartRecord (datasource.go): on a
frameChan receive, a nil frame causes return nil; otherwise the frame is
sent and a Send error is returned as the RPC error; on a done context,
context.Canceled maps to return nil and any other context error is
returned. The result pairs the frames successfully handed to the network
with the exit value (none when the loop is still running after the given
events). -/
def DatasourceGRPCServer.startRecordLoop : List ServerEvent → List Frame × Option LoopExit
  | [] => ([], none)
  | ServerEvent.recv f se :: rest =>
    match f with
    | none => ([], some LoopExit.ok)
    | some fr =>
      match se with
      | some e => ([], some (LoopExit.sendErr e))
      | none =>
        match DatasourceGRPCServer.startRecordLoop rest with
        | (sent, x) => (fr :: sent, x)
  | ServerEvent.ctxDone ce :: _ =>
    if ce = CtxErr.canceled then ([], some LoopExit.ok)
    else ([], some (LoopExit.ctxErr ce))

/-- Select loop of ControllerGRPCServer.Command (identical in both
controller.go revisions): like the datasource loop but with no nil check on
the received frame, so stream.Send is invoked on whatever pointer the
receive produced, including nil; the sent list therefore holds optional
frames. -/
def ControllerGRPCServer.commandLoop : List ServerEvent → List (Option Frame) × Option LoopExit
  | [] => ([], none)
  | ServerEvent.recv f se :: rest =>
    match se with
    | some e => ([], some (LoopExit.sendErr e))
    | none =>
      match ControllerGRPCServer.commandLoop rest with
      | (sent, x) => (f :: sent, x)
  | ServerEvent.ctxDone ce :: _ =>
    if ce = CtxErr.canceled then ([], some LoopExit.ok)
    else ([], some (LoopExit.ctxErr ce))

/-- Errors defined or surfaced by the SDK version gates: the two blunderguard
constants from datasource.go plus errors propagated verbatim from the
go-version library parse functions. -/
inductive SdkErr where
  | pluginVersionNotSet
  | laniakeaVersionMismatch
  | goVersionErr (msg : String)
deriving DecidableEq

/-- Plugin-side StartRecord handler (datasource.go): when Impl.StartRecord
fails the RPC fails with that error, otherwise the select loop runs on the
returned channel. -/
def DatasourceGRPCServer.StartRecord (implResult : Except SdkErr (List ServerEvent)) :
    Except SdkErr (List Frame × Option LoopExit) :=
  match implResult with
  | Except.error e => Except.error e
  | Except.ok events => Except.ok (DatasourceGRPCServer.startRecordLoop events)

/-- Plugin-side Command handler (controller.go, both revisions): when
Impl.Command fails the RPC fails with that error, otherwise the select loop
runs on the returned channel. -/
def ControllerGRPCServer.Command (implResult : Except SdkErr (List ServerEvent)) :
    Except SdkErr (List (Option Frame) × Option LoopExit) :=
  match implResult with
  | Except.error e => Except.error e
  | Except.ok events => Except.ok (ControllerGRPCServer.commandLoop events)

/-- Abstract model of the external hashicorp go-version library: a type of
parsed versions, a type of single constraints, the two parse functions, and
the check of one constraint against a version. Only the parts the SDK
depends on are fixed in GoVersionLib.check below. -/
structure GoVersionLib where
  Ver : Type
  Atom : Type
  newVersion : String → Except String Ver
  newConstraint : String → Except String (List Atom)
  atomCheck : Atom → Ver → Bool

/-- Constraints.Check of go-version: a constraint set is a slice and Check
iterates over it, failing as soon as one member rejects the version; an
empty slice (the zero value of the field) therefore accepts every version. -/
def GoVersionLib.check (lib : GoVersionLib) (cs : List lib.Atom) (v : lib.Ver) : Bool :=
  cs.all (fun c => lib.atomCheck c v)

/-- DatasourceBase (datasource.go): plugin version string, parsed laniakea
version constraints, and the recorded (negotiated) laniakea version. The
ControllerBase of the controller.go revision packaged with the proto schema
has exactly the same fields and method bodies. -/
structure DatasourceBase (lib : GoVersionLib) where
  version : String
  laniVersionConstraint : List lib.Atom
  laniVersion : String

/-- Zero value of a DatasourceBase, as produced by a Go composite literal
that omits the embedded base (empty strings and a nil constraint slice). -/
def DatasourceBase.zero (lib : GoVersionLib) : DatasourceBase lib := ⟨"", [], ""⟩

/-- SetPluginVersion (datasource.go): records the plugin version string. -/
def DatasourceBase.SetPluginVersion {lib : GoVersionLib} (b : DatasourceBase lib)
    (verStr : String) : DatasourceBase lib :=
  ⟨verStr, b.laniVersionConstraint, b.laniVersion⟩

/-- SetVersionConstraints (datasource.go): parses the constraint expression
with version.NewConstraint; on error the error is returned and nothing is
stored, on success the parsed constraints are stored. -/
def DatasourceBase.SetVersionConstraints {lib : GoVersionLib} (b : DatasourceBase lib)
    (verStr : String) : DatasourceBase lib × Option SdkErr :=
  match lib.newConstraint verStr with
  | Except.error m => (b, some (SdkErr.goVersionErr m))
  | Except.ok cs => (⟨b.version, cs, b.laniVersion⟩, none)

/-- GetLaniVersion (datasource.go): returns the recorded laniakea version. -/
def DatasourceBase.GetLaniVersion {lib : GoVersionLib} (b : DatasourceBase lib) : String :=
  b.laniVersion

/-- GetVersion (datasource.go): fails with ErrPluginVersionNotSet when the
stored plugin version is the empty string, otherwise returns it. -/
def DatasourceBase.GetVersion {lib : GoVersionLib} (b : DatasourceBase lib) :
    String × Option SdkErr :=
  if b.version = "" then ("", some SdkErr.pluginVersionNotSet) else (b.version, none)

/-- PushVersion (datasource.go): parses the pushed version with
version.NewVersion, returning the parse error on failure; returns
ErrLaniakeaVersionMismatch when the stored constraints reject the parsed
version; otherwise records the pushed string as the laniakea version. -/
def DatasourceBase.PushVersion {lib : GoVersionLib} (b : DatasourceBase lib)
    (versionNumber : String) : DatasourceBase lib × Option SdkErr :=
  match lib.newVersion versionNumber with
  | Except.error m => (b, some (SdkErr.goVersionErr m))
  | Except.ok laniV =>
    if GoVersionLib.check lib b.laniVersionConstraint laniV then
      (⟨b.version, b.laniVersionConstraint, versionNumber⟩, none)
    else (b, some SdkErr.laniakeaVersionMismatch)

/-- ControllerBase from the repository-root controller.go: here the required
laniakea version is kept as a plain string and PushVersion compares the
pushed string to it for equality, with no parsing and no constraint check. -/
structure ControllerBaseV1 where
  version : String
  requiredLaniVersion : String
  laniVersion : String
deriving DecidableEq

/-- Zero value of the string-comparison ControllerBase. -/
def ControllerBaseV1.zero : ControllerBaseV1 := ⟨"", "", ""⟩

/-- SetPluginVersion (repository-root controller.go). -/
def ControllerBaseV1.SetPluginVersion (b : ControllerBaseV1) (verStr : String) :
    ControllerBaseV1 :=
  ⟨verStr, b.requiredLaniVersion, b.laniVersion⟩

/-- SetRequiredVersion (repository-root controller.go): stores the string
verbatim, with no parsing. -/
def ControllerBaseV1.SetRequiredVersion (b : ControllerBaseV1) (verStr : String) :
    ControllerBaseV1 :=
  ⟨b.version, verStr, b.laniVersion⟩

/-- GetLaniVersion (repository-root controller.go). -/
def ControllerBaseV1.GetLaniVersion (b : ControllerBaseV1) : String := b.laniVersion

/-- GetVersion (repository-root controller.go): same body as the
DatasourceBase method. -/
def ControllerBaseV1.GetVersion (b : ControllerBaseV1) : String × Option SdkErr :=
  if b.version = "" then ("", some SdkErr.pluginVersionNotSet) else (b.version, none)

/-- PushVersion (repository-root controller.go): fails with
ErrLaniakeaVersionMismatch unless the pushed string equals the stored
required version string; on success records the pushed string. -/
def ControllerBaseV1.PushVersion (b : ControllerBaseV1) (verStr : String) :
    ControllerBaseV1 × Option SdkErr :=
  if verStr ≠ b.requiredLaniVersion then (b, some SdkErr.laniakeaVersionMismatch)
  else (⟨b.version, b.requiredLaniVersion, verStr⟩, none)

/-- Runs a sequence of SetPluginVersion calls on a DatasourceBase. -/
def DatasourceBase.runSetPluginVersion {lib : GoVersionLib} (b : DatasourceBase lib) :
    List String → DatasourceBase lib
  | [] => b
  | v :: rest => DatasourceBase.runSetPluginVersion (DatasourceBase.SetPluginVersion b v) rest

/-- Runs a sequence of SetPluginVersion calls on the string-comparison
ControllerBase. -/
def ControllerBaseV1.runSetPluginVersion (b : ControllerBaseV1) :
    List String → ControllerBaseV1
  | [] => b
  | v :: rest => ControllerBaseV1.runSetPluginVersion (ControllerBaseV1.SetPluginVersion b v) rest

/-- Demonstration instantiation of the go-version interface used to evaluate
theorems on concrete inputs: it parses the handful of version literals that
appear in the repository documentation and the single constraint expression
of the documented workflow. -/
def demoNewVersion (s : String) : Except String (Nat × Nat × Nat) :=
  if s = "0.1.9" then Except.ok (0, 1, 9)
  else if s = "0.2.0" then Except.ok (0, 2, 0)
  else if s = "0.3.0" then Except.ok (0, 3, 0)
  else if s = "1.0.0" then Except.ok (1, 0, 0)
  else Except.error "Malformed version"

/-- Demonstration check: the single supported constraint form is a lower
bound, accepted when the candidate is lexicographically at least it. -/
def demoAtomCheck : (Nat × Nat × Nat) → (Nat × Nat × Nat) → Bool
  | (a, b, c), (x, y, z) => decide (a < x ∨ (a = x ∧ (b < y ∨ (b = y ∧ c ≤ z))))

/-- Demonstration constraint parse: only the documented expression. -/
def demoNewConstraint (s : String) : Except String (List (Nat × Nat × Nat)) :=
  if s = ">= 0.2.0" then Except.ok [(0, 2, 0)]
  else Except.error "Malformed constraint"

/-- Demonstration library record. -/
def demoLib : GoVersionLib :=
  ⟨Nat × Nat × Nat, Nat × Nat × Nat, demoNewVersion, demoNewConstraint, demoAtomCheck⟩

instance {ε α : Type} [DecidableEq ε] [DecidableEq α] : DecidableEq (Except ε α) :=
  fun a b =>
    match a, b with
    | Except.error e1, Except.error e2 =>
      if h : e1 = e2 then isTrue (by rw [h])
      else isFalse (by intro hh; injection hh; contradiction)
    | Except.error _, Except.ok _ => isFalse (by intro hh; cases hh)
    | Except.ok _, Except.error _ => isFalse (by intro hh; cases hh)
    | Except.ok v1, Except.ok v2 =>
      if h : v1 = v2 then isTrue (by rw [h])
      else isFalse (by intro hh; injection hh; contradiction)

instance : DecidableEq demoLib.Ver := inferInstanceAs (DecidableEq (Nat × Nat × Nat))

instance : DecidableEq demoLib.Atom := inferInstanceAs (DecidableEq (Nat × Nat × Nat))

example : demoNewVersion "0.2.0" = Except.ok (0, 2, 0) := by decide

example : (DatasourceBase.PushVersion (DatasourceBase.zero demoLib) "0.2.0").2 = none := by decide

/-- Loop event for a successful receive and send of frame f. -/
def recvOk (f : Frame) : ServerEvent := ServerEvent.recv (some f) none

/-- Concrete frame used to evaluate theorems on concrete inputs. -/
def f0 : Frame := ⟨"test_datasource", "application/json", 0, []⟩

lemma clientForwardGoroutine_cons_ok (f : Frame) (t : List RecvStep) :
    clientForwardGoroutine (okStep f :: t) =
      match clientForwardGoroutine t with
      | none => none
      | some r => some (f :: r.1, r.2) := rfl

lemma clientForwardGoroutine_append_ok (fs : List Frame) (t : List RecvStep) :
    clientForwardGoroutine (fs.map okStep ++ t) =
      (clientForwardGoroutine t).map (fun r => (fs ++ r.1, r.2)) := by
  induction fs with
  | nil => cases h : clientForwardGoroutine t <;> simp [h]
  | cons f fs ih =>
    rw [List.map_cons, List.cons_append, clientForwardGoroutine_cons_ok, ih]
    cases h : clientForwardGoroutine t <;> simp [h]

lemma clientForwardGoroutine_terminal (s : RecvStep) (rest : List RecvStep)
    (h : s.frame = none ∨ s.err ≠ none) :
    clientForwardGoroutine (s :: rest) = some ([], true) := by
  rcases s with ⟨fr, er⟩
  cases fr with
  | none => rfl
  | some f =>
    cases er with
    | some e => rfl
    | none =>
      rcases h with h | h
      · simp at h
      · simp at h

lemma clientForwardGoroutine_ok_terminal (fs : List Frame) (s : RecvStep)
    (rest : List RecvStep) (h : s.frame = none ∨ s.err ≠ none) :
    clientForwardGoroutine (fs.map okStep ++ s :: rest) = some (fs, true) := by
  rw [clientForwardGoroutine_append_ok, clientForwardGoroutine_terminal s rest h]
  simp

lemma startRecordLoop_cons_ok (f : Frame) (t : List ServerEvent) :
    DatasourceGRPCServer.startRecordLoop (recvOk f :: t) =
      (f :: (DatasourceGRPCServer.startRecordLoop t).1,
        (DatasourceGRPCServer.startRecordLoop t).2) := rfl

lemma startRecordLoop_append_ok (fs : List Frame) (t : List ServerEvent) :
    DatasourceGRPCServer.startRecordLoop (fs.map recvOk ++ t) =
      (fs ++ (DatasourceGRPCServer.startRecordLoop t).1,
        (DatasourceGRPCServer.startRecordLoop t).2) := by
  induction fs with
  | nil => simp
  | cons f fs ih =>
    rw [List.map_cons, List.cons_append, startRecordLoop_cons_ok, ih]
    simp

lemma commandLoop_cons_ok (f : Frame) (t : List ServerEvent) :
    ControllerGRPCServer.commandLoop (recvOk f :: t) =
      (some f :: (ControllerGRPCServer.commandLoop t).1,
        (ControllerGRPCServer.commandLoop t).2) := rfl

lemma commandLoop_append_ok (fs : List Frame) (t : List ServerEvent) :
    ControllerGRPCServer.commandLoop (fs.map recvOk ++ t) =
      (fs.map some ++ (ControllerGRPCServer.commandLoop t).1,
        (ControllerGRPCServer.commandLoop t).2) := by
  induction fs with
  | nil => simp
  | cons f fs ih =>
    rw [List.map_cons, List.cons_append, commandLoop_cons_ok, ih, List.map_cons]
    simp

lemma runSetPluginVersionV1_eq (b : ControllerBaseV1) (calls : List String) :
    ControllerBaseV1.runSetPluginVersion b calls =
      ⟨calls.getLastD b.version, b.requiredLaniVersion, b.laniVersion⟩ := by
  induction calls generalizing b with
  | nil => rfl
  | cons v rest ih =>
    rw [show ControllerBaseV1.runSetPluginVersion b (v :: rest) =
          ControllerBaseV1.runSetPluginVersion ⟨v, b.requiredLaniVersion, b.laniVersion⟩ rest
        from rfl, ih, List.getLastD_cons]

lemma runSetPluginVersionDs_eq {lib : GoVersionLib} (b : DatasourceBase lib)
    (calls : List String) :
    DatasourceBase.runSetPluginVersion b calls =
      ⟨calls.getLastD b.version, b.laniVersionConstraint, b.laniVersion⟩ := by
  induction calls generalizing b with
  | nil => rfl
  | cons v rest ih =>
    rw [show DatasourceBase.runSetPluginVersion b (v :: rest) =
          DatasourceBase.runSetPluginVersion ⟨v, b.laniVersionConstraint, b.laniVersion⟩ rest
        from rfl, ih, List.getLastD_cons]


/-- C1: as stated the claim fails. For a plugin stream delivering exactly one
frame f0 and then ending, the channel returned by StartRecord yields no
frame at all before closing, because the eager first receive consumes f0 and
the forwarding goroutine only relays the receives that follow it; the claim
requires the channel to yield [f0]. -/
theorem C1_counterexample :
    DatasourceGRPCClient.StartRecord none (okStep f0) [eofStep] =
      HostResult.channel (some ([], true)) ∧
    HostResult.channel (some (([] : List Frame), true)) ≠
      HostResult.channel (some ([f0], true)) :=
  ⟨rfl, by decide⟩

/-- C1 (amended): when the plugin-side stream delivers frame f followed by
frames fs and then ends and the call opens successfully, the channel yields
exactly fs (the frames after the first) in order and is then closed with no
error; when the stream ends before any frame, StartRecord returns the io.EOF
error and no channel. -/
theorem C1_start_record_forwards_rest : ∀ (f : Frame) (fs : List Frame),
    DatasourceGRPCClient.StartRecord none (okStep f) (fs.map okStep ++ [eofStep]) =
      HostResult.channel (some (fs, true)) ∧
    DatasourceGRPCClient.StartRecord none eofStep [] =
      HostResult.noChannel (some GoErr.eof) := by
  intro f fs
  constructor
  · show HostResult.channel (clientForwardGoroutine (fs.map okStep ++ [eofStep])) = _
    rw [clientForwardGoroutine_ok_terminal fs eofStep [] (Or.inl rfl)]
  · rfl

/-- C2: evaluation at the failing input. With the required version stored as
the documented constraint expression, pushing the host version 0.2.0 to the
ControllerBase of the repository-root controller.go fails with
ErrLaniakeaVersionMismatch and records nothing, because that PushVersion
compares strings for equality; the same push against a constraint-checking
gate (DatasourceBase, here over the demonstration library in which 0.2.0
parses and satisfies the constraint) succeeds and records 0.2.0. -/
theorem C2_controller_push_version_eval :
    (ControllerBaseV1.PushVersion ⟨"1.0.0", ">= 0.2.0", ""⟩ "0.2.0" =
      (⟨"1.0.0", ">= 0.2.0", ""⟩, some SdkErr.laniakeaVersionMismatch)) ∧
    (demoLib.newVersion "0.2.0" = Except.ok (0, 2, 0)) ∧
    (GoVersionLib.check demoLib [(0, 2, 0)] (0, 2, 0) = true) ∧
    (DatasourceBase.PushVersion (⟨"1.0.0", [(0, 2, 0)], ""⟩ : DatasourceBase demoLib) "0.2.0" =
      (⟨"1.0.0", [(0, 2, 0)], "0.2.0"⟩, none)) := by
  refine ⟨by decide, by decide, by decide, rfl⟩

/-- C3: as stated the claim fails for the Command adapter of the
repository-root controller.go: with the call opened successfully and the
first receive yielding an error, that adapter still returns a channel and a
nil error (it performs no receive before returning), where the claim
requires the error and no channel. -/
theorem C3_counterexample :
    ControllerGRPCClientV1.Command none [⟨none, some (GoErr.other "recv failure")⟩] =
      HostResult.channel (some ([], true)) ∧
    HostResult.channel (some (([] : List Frame), true)) ≠
      HostResult.noChannel (some (GoErr.other "recv failure")) :=
  ⟨rfl, by decide⟩

/-- C3 (amended): the Command adapter packaged with the proto schema behaves
as claimed: after a successful open it consumes exactly one receive before
returning, returns the error and no channel when that receive carries an
error (io.EOF included), and otherwise returns a channel fed by the spawned
forwarding task from the subsequent receives; the repository-root Command
adapter instead returns the channel immediately after a successful open,
handing every receive to the spawned task. -/
theorem C3_command_first_receive : ∀ (f : Frame) (steps rest : List RecvStep)
    (e : GoErr) (s : RecvStep),
    (ControllerGRPCClientV2.Command none (okStep f) steps =
      HostResult.channel (clientForwardGoroutine steps)) ∧
    (s.err = some e →
      ControllerGRPCClientV2.Command none s rest = HostResult.noChannel (some e)) ∧
    (ControllerGRPCClientV1.Command none steps =
      HostResult.channel (clientForwardGoroutine steps)) := by
  intro f steps rest e s
  refine ⟨rfl, ?_, rfl⟩
  intro h
  rcases s with ⟨fr, er⟩
  have h2 : er = some e := h
  subst h2
  cases fr <;> rfl

/-- C3 witness: the first-receive clause evaluated at io.EOF. -/
theorem C3_witness :
    eofStep.err = some GoErr.eof ∧
    ControllerGRPCClientV2.Command none eofStep [] =
      HostResult.noChannel (some GoErr.eof) :=
  ⟨rfl, (C3_command_first_receive f0 [] [] GoErr.eof eofStep).2.1 rfl⟩

/-- C4: evaluation at the failing input. When the plugin channel of a
Command call is closed after finitely many frames, every further receive
yields nil; the Command loop has no nil check, so for every number k of loop
iterations it has handed k nil pointers to stream.Send and is still running
(exit value none), never returning success, while the StartRecord loop
returns success (nil error) at the first nil receive. -/
theorem C4_command_loop_never_returns : ∀ (k : Nat),
    (ControllerGRPCServer.commandLoop (List.replicate k (ServerEvent.recv none none)) =
      (List.replicate k none, none)) ∧
    (DatasourceGRPCServer.startRecordLoop
        (ServerEvent.recv none none :: List.replicate k (ServerEvent.recv none none)) =
      ([], some LoopExit.ok)) := by
  intro k
  constructor
  · induction k with
    | zero => rfl
    | succ n ih =>
      rw [List.replicate_succ,
        show ∀ L, ControllerGRPCServer.commandLoop (ServerEvent.recv none none :: L) =
            (none :: (ControllerGRPCServer.commandLoop L).1,
              (ControllerGRPCServer.commandLoop L).2)
          from fun L => rfl,
        ih, List.replicate_succ]
  · rfl

/-- C5: for the host-side StartRecord adapter, whenever the first receive on
the opened stream yields any error (io.EOF for end-of-stream included), the
call returns that error and no channel. -/
theorem C5_first_receive_error_no_channel : ∀ (s : RecvStep) (rest : List RecvStep)
    (e : GoErr), s.err = some e →
    DatasourceGRPCClient.StartRecord none s rest = HostResult.noChannel (some e) := by
  intro s rest e h
  rcases s with ⟨fr, er⟩
  have h2 : er = some e := h
  subst h2
  cases fr <;> rfl

/-- C5 witness: evaluated at an end-of-stream first receive. -/
theorem C5_witness :
    eofStep.err = some GoErr.eof ∧
    DatasourceGRPCClient.StartRecord none eofStep [] =
      HostResult.noChannel (some GoErr.eof) :=
  ⟨rfl, C5_first_receive_error_no_channel eofStep [] GoErr.eof rfl⟩

/-- C6: whenever the forwarding goroutine observes a terminal receive (nil
frame, io.EOF, or any error) after relaying the frames fs, it exits having
delivered exactly fs onto the channel and the deferred close has run: the
channel is closed and the triggering error value itself is never delivered
to the consumer. -/
theorem C6_forwarding_task_closes_channel : ∀ (fs : List Frame) (s : RecvStep)
    (rest : List RecvStep), s.frame = none ∨ s.err ≠ none →
    clientForwardGoroutine (fs.map okStep ++ s :: rest) = some (fs, true) :=
  fun fs s rest h => clientForwardGoroutine_ok_terminal fs s rest h

/-- C6 witness: one relayed frame followed by end-of-stream. -/
theorem C6_witness :
    (eofStep.frame = none ∨ eofStep.err ≠ none) ∧
    clientForwardGoroutine ([f0].map okStep ++ eofStep :: []) = some ([f0], true) :=
  ⟨Or.inl rfl, C6_forwarding_task_closes_channel [f0] eofStep [] (Or.inl rfl)⟩

/-- C7: in both plugin-side loops, once the done context is observed after
fs frames have been forwarded, a context error equal to context.Canceled
makes the handler return success (nil error), and any other context error is
returned as the failure. -/
theorem C7_cancellation : ∀ (fs : List Frame) (ce : CtxErr),
    (DatasourceGRPCServer.startRecordLoop (fs.map recvOk ++ [ServerEvent.ctxDone ce]) =
      (fs, if ce = CtxErr.canceled then some LoopExit.ok
        else some (LoopExit.ctxErr ce))) ∧
    (ControllerGRPCServer.commandLoop (fs.map recvOk ++ [ServerEvent.ctxDone ce]) =
      (fs.map some, if ce = CtxErr.canceled then some LoopExit.ok
        else some (LoopExit.ctxErr ce))) := by
  intro fs ce
  constructor
  · rw [startRecordLoop_append_ok]
    by_cases h : ce = CtxErr.canceled <;>
      simp [DatasourceGRPCServer.startRecordLoop, h]
  · rw [commandLoop_append_ok]
    by_cases h : ce = CtxErr.canceled <;>
      simp [ControllerGRPCServer.commandLoop, h]

/-- C8: as stated the claim fails. Calling SetPluginVersion with the empty
string and then GetVersion yields ErrPluginVersionNotSet although
SetPluginVersion was called, because GetVersion tests the stored string
against the empty-string sentinel rather than whether a call happened. -/
theorem C8_counterexample :
    ControllerBaseV1.GetVersion
        (ControllerBaseV1.runSetPluginVersion ControllerBaseV1.zero [""]) =
      ("", some SdkErr.pluginVersionNotSet) ∧
    ([""] : List String) ≠ [] :=
  ⟨rfl, by decide⟩

/-- C8 (amended): for every sequence of SetPluginVersion calls on a freshly
created base (DatasourceBase or the controller.go ControllerBase, whose
bodies agree), GetVersion fails with ErrPluginVersionNotSet iff no call was
made or the most recent call passed the empty string, and otherwise returns
exactly the argument of the most recent call. -/
theorem C8_get_version_last_set : ∀ (lib : GoVersionLib) (calls : List String),
    (ControllerBaseV1.GetVersion
        (ControllerBaseV1.runSetPluginVersion ControllerBaseV1.zero calls) =
      (if calls.getLastD "" = "" then ("", some SdkErr.pluginVersionNotSet)
        else (calls.getLastD "", none))) ∧
    (DatasourceBase.GetVersion
        (DatasourceBase.runSetPluginVersion (DatasourceBase.zero lib) calls) =
      (if calls.getLastD "" = "" then ("", some SdkErr.pluginVersionNotSet)
        else (calls.getLastD "", none))) := by
  intro lib calls
  constructor
  · rw [show ControllerBaseV1.zero = (⟨"", "", ""⟩ : ControllerBaseV1) from rfl,
      runSetPluginVersionV1_eq]
    rfl
  · rw [show DatasourceBase.zero lib = (⟨"", [], ""⟩ : DatasourceBase lib) from rfl,
      runSetPluginVersionDs_eq]
    rfl

/-- C9: in the StartRecord server loop, a nil frame received from the plugin
channel after fs frames makes the handler return success immediately: the
frames fs received before the nil are exactly the ones handed to the
network, and whatever the channel would deliver afterwards (the arbitrary
tail) is never forwarded. -/
theorem C9_nil_frame_ends_stream : ∀ (fs : List Frame) (se : Option GoErr)
    (tail : List ServerEvent),
    DatasourceGRPCServer.startRecordLoop
        (fs.map recvOk ++ ServerEvent.recv none se :: tail) =
      (fs, some LoopExit.ok) := by
  intro fs se tail
  rw [startRecordLoop_append_ok]
  simp [DatasourceGRPCServer.startRecordLoop]

/-- C10: on a DatasourceBase whose constraint slice is still the zero value
(SetVersionConstraints never called), PushVersion never returns the
mismatch error, and for every version string accepted by the parser the
push succeeds and records the string as the negotiated laniakea version,
because the check of an empty constraint slice accepts every version. -/
theorem C10_empty_constraints_accept : ∀ (lib : GoVersionLib) (v : String),
    ((DatasourceBase.PushVersion (DatasourceBase.zero lib) v).2 ≠
      some SdkErr.laniakeaVersionMismatch) ∧
    (∀ ver : lib.Ver, lib.newVersion v = Except.ok ver →
      DatasourceBase.PushVersion (DatasourceBase.zero lib) v =
        (⟨"", [], v⟩, none)) := by
  intro lib v
  constructor
  · cases h : lib.newVersion v with
    | error m =>
      simp [DatasourceBase.PushVersion, DatasourceBase.zero, h]
    | ok ver =>
      simp [DatasourceBase.PushVersion, DatasourceBase.zero, h, GoVersionLib.check]
  · intro ver h
    simp [DatasourceBase.PushVersion, DatasourceBase.zero, h, GoVersionLib.check]

/-- C10 witness: a parsing version evaluated over the demonstration library
is recorded by a constraint-free gate. -/
theorem C10_witness :
    demoLib.newVersion "0.3.0" = Except.ok (0, 3, 0) ∧
    DatasourceBase.PushVersion (DatasourceBase.zero demoLib) "0.3.0" =
      (⟨"", [], "0.3.0"⟩, none) :=
  ⟨by decide, (C10_empty_constraints_accept demoLib "0.3.0").2 (0, 3, 0) (by decide)⟩
